import Mathlib

/-!
Shallow embedding of the terminal_relaunch crate (src/lib.rs,
src/terminal_providers.rs, src/errors.rs).

Machine state that the Rust code reads from the outside world (environment
variables, the Windows registry, the process argument list, installed
applications, spawn outcomes) is passed explicitly as snapshot structures.
Process-wide mutable state (the two atomic override cells and the lazily
initialised feature-flag statics) is modelled by explicit state records and
state-passing functions.
-/

namespace TermRelaunch

/-- Terminal kinds, in the declaration order of the Rust enum TerminalType.
The derived strum EnumIter iterates in this declaration order. -/
inductive TerminalType where
  | Unknown
  | WindowsCMD
  | WindowsTerminal
  | MacOS
  | ITerm2
  | Kitty
  | Ghostty
  | ThirdPartyMacOSTerminal
  | LinuxTerminal
  | WezTerm
  | Alacritty
  | VSCode
  | Nvim
deriving DecidableEq, Repr

/-- Runtime operating systems, from the Rust enum OperatingSystem. -/
inductive OperatingSystem where
  | Windows
  | MacOS
  | Linux
  | Unknown
deriving DecidableEq, Repr

/-- Target operating systems, from the Rust enum TargetOperatingSystem. -/
inductive TargetOperatingSystem where
  | Invalid
  | Windows
  | MacOS
  | Linux
  | Any
deriving DecidableEq, Repr

/-- From TerminalType::target_os. -/
def TerminalType.target_os : TerminalType → TargetOperatingSystem
  | .WindowsCMD | .WindowsTerminal => .Windows
  | .MacOS | .ITerm2 | .Ghostty | .Kitty | .ThirdPartyMacOSTerminal => .MacOS
  | .VSCode | .Nvim | .Alacritty | .WezTerm => .Any
  | .LinuxTerminal => .Linux
  | .Unknown => .Invalid

/-- From TerminalType::supports_rgb_ansi_colours. -/
def TerminalType.supports_rgb_ansi_colours : TerminalType → Bool
  | .Unknown | .MacOS => false
  | .WindowsCMD | .WindowsTerminal | .VSCode | .Nvim | .ITerm2
  | .ThirdPartyMacOSTerminal | .Alacritty | .WezTerm | .Kitty
  | .Ghostty | .LinuxTerminal => true

/-- From TerminalType::supports_full_unicode. -/
def TerminalType.supports_full_unicode : TerminalType → Bool
  | .Unknown | .WindowsCMD | .MacOS => false
  | .WindowsTerminal | .VSCode | .Nvim | .ITerm2
  | .ThirdPartyMacOSTerminal | .Alacritty | .WezTerm | .Kitty
  | .Ghostty | .LinuxTerminal => true

/-- From TerminalType::is_preferred. -/
def TerminalType.is_preferred (t : TerminalType) : Bool :=
  t.supports_full_unicode && t.supports_rgb_ansi_colours

/-- All TerminalType values in the declaration order of the Rust enum,
which is the iteration order of the derived strum EnumIter. -/
def terminalTypeIter : List TerminalType :=
  [.Unknown, .WindowsCMD, .WindowsTerminal, .MacOS, .ITerm2, .Kitty, .Ghostty,
   .ThirdPartyMacOSTerminal, .LinuxTerminal, .WezTerm, .Alacritty, .VSCode, .Nvim]

/-- From OperatingSystem::compatible_with_target. -/
def OperatingSystem.compatible_with_target
    (os : OperatingSystem) (other : TargetOperatingSystem) : Bool :=
  if other = .Any then true
  else
    match os, other with
    | .Windows, .Windows => true
    | .MacOS, .MacOS => true
    | .Linux, .Linux => true
    | _, _ => false

/-- From the constant TERM_PROGRAM_VAR in terminal_providers.rs. -/
def TERM_PROGRAM_VAR : String := "TERM_PROGRAM"

/-- From the constant TERM_VAR in terminal_providers.rs. -/
def TERM_VAR : String := "TERM"

/-- Lowers an ASCII uppercase letter, leaves every other character as is;
the character-level content of Rust u8::to_ascii_lowercase. -/
def asciiLowerChar (c : Char) : Char :=
  if 'A' ≤ c ∧ c ≤ 'Z' then Char.ofNat (c.toNat + 32) else c

/-- From Rust str::eq_ignore_ascii_case: equality after ASCII lowercasing. -/
def eq_ignore_ascii_case (a b : String) : Bool :=
  a.data.map asciiLowerChar == b.data.map asciiLowerChar

/-- Snapshot of the machine state the classifier reads: the process
environment variables and the outcome of the Windows console-delegation
registry check (both DelegationConsole and DelegationTerminal keys present
and unequal). -/
structure EnvSnapshot where
  vars : String → Option String
  delegationRegistrySet : Bool

/-- From TerminalSignature in lib.rs. The Rust static slices become lists. -/
inductive TerminalSignature where
  | EnvVarExists (name : String)
  | EnvVar (name value : String)
  | TermProgram (value : String)
  | TermVar (value : String)
  | WindowsConsoleDelegationSet
  | Any (sigs : List TerminalSignature)

/-- From the match arms EnvVar/TermProgram/TermVar of TerminalSignature::check:
the variable must be set and equal to the value case-insensitively. -/
def envVarMatches (env : EnvSnapshot) (var value : String) : Bool :=
  match env.vars var with
  | some v => eq_ignore_ascii_case v value
  | none => false

/-- From check_for_windows_registry_delegation: compiled-out (hence false) on
every OS other than Windows, the registry outcome on Windows. The compile
target is modelled by the runtime OS argument. -/
def check_for_windows_registry_delegation
    (env : EnvSnapshot) (os : OperatingSystem) : Bool :=
  if os = .Windows then env.delegationRegistrySet else false

mutual

/-- From TerminalSignature::check. -/
def TerminalSignature.check
    (env : EnvSnapshot) (os : OperatingSystem) : TerminalSignature → Bool
  | .EnvVarExists name => (env.vars name).isSome
  | .EnvVar name value => envVarMatches env name value
  | .TermProgram value => envVarMatches env TERM_PROGRAM_VAR value
  | .TermVar value => envVarMatches env TERM_VAR value
  | .WindowsConsoleDelegationSet => check_for_windows_registry_delegation env os
  | .Any sigs => TerminalSignature.checkAny env os sigs

/-- The Any arm of TerminalSignature::check: iter().any over the slice,
short-circuiting on the first true. -/
def TerminalSignature.checkAny
    (env : EnvSnapshot) (os : OperatingSystem) : List TerminalSignature → Bool
  | [] => false
  | s :: rest => TerminalSignature.check env os s
      || TerminalSignature.checkAny env os rest

end

/-- From the struct TerminalIdentifier in lib.rs. -/
structure TerminalIdentifier where
  kind : TerminalType
  target_os : TargetOperatingSystem
  signatures : List TerminalSignature

/-- From TERMINAL_IDENTIFIERS in terminal_providers.rs, in declaration order. -/
def TERMINAL_IDENTIFIERS : List TerminalIdentifier :=
  [⟨.VSCode, .Any, [.TermProgram "vscode"]⟩,
   ⟨.Nvim, .Any, [.EnvVarExists "NVIM"]⟩,
   ⟨.ITerm2, .Any, [.EnvVarExists "ITERM_SESSION_ID"]⟩,
   ⟨.Alacritty, .Any, [.EnvVarExists "ALACRITTY_LOG"]⟩,
   ⟨.WezTerm, .Any, [.TermProgram "WezTerm"]⟩,
   ⟨.Kitty, .MacOS, [.TermVar "xterm-kitty"]⟩,
   ⟨.Ghostty, .MacOS, [.TermProgram "ghostty"]⟩]

/-- From FINAL_TERMINAL_IDENTIFIERS in terminal_providers.rs. -/
def FINAL_TERMINAL_IDENTIFIERS : List TerminalIdentifier :=
  [⟨.WindowsTerminal, .Windows,
     [.Any [.WindowsConsoleDelegationSet, .EnvVarExists "WT_SESSION"]]⟩,
   ⟨.MacOS, .MacOS, [.TermProgram "Apple_Terminal"]⟩]

/-- From get_default_terminal_for_os. -/
def get_default_terminal_for_os : OperatingSystem → TerminalType
  | .Windows => .WindowsCMD
  | .MacOS => .MacOS
  | .Linux => .LinuxTerminal
  | .Unknown => .Unknown

/-- From get_all_terminal_identifiers: the primary table chained with the
final table. -/
def get_all_terminal_identifiers : List TerminalIdentifier :=
  TERMINAL_IDENTIFIERS ++ FINAL_TERMINAL_IDENTIFIERS

/-- From get_possible_terminal_identifiers_for: the chained tables filtered
by OS compatibility. -/
def get_possible_terminal_identifiers_for
    (os : OperatingSystem) : List TerminalIdentifier :=
  get_all_terminal_identifiers.filter
    (fun identifier => os.compatible_with_target identifier.target_os)

/-- The loop body of find_current_terminal: return the kind of the first
identifier all of whose signatures check out. -/
def find_first_matching_identifier
    (env : EnvSnapshot) (os : OperatingSystem) :
    List TerminalIdentifier → Option TerminalType
  | [] => none
  | identifier :: rest =>
      if identifier.signatures.all (fun s => s.check env os) then
        some identifier.kind
      else
        find_first_matching_identifier env os rest

/-- From find_current_terminal: walk the compatible identifiers in order,
return the first full match, else the OS default terminal. -/
def find_current_terminal (env : EnvSnapshot) (os : OperatingSystem) :
    TerminalType :=
  match find_first_matching_identifier env os
      (get_possible_terminal_identifiers_for os) with
  | some kind => kind
  | none => get_default_terminal_for_os os

/-- From get_preferred_terminals_for_os: TerminalType::iter() filtered to
preferred variants compatible with the OS, in declaration order. -/
def get_preferred_terminals_for_os (os : OperatingSystem) : List TerminalType :=
  terminalTypeIter.filter
    (fun t => t.is_preferred && os.compatible_with_target t.target_os)

/-- From the constant NO_OVERRIDE in lib.rs. -/
def NO_OVERRIDE : Nat := 0

/-- From the constant OVERRIDE_TRUE in lib.rs. -/
def OVERRIDE_TRUE : Nat := 1

/-- From the constant OVERRIDE_FALSE in lib.rs. -/
def OVERRIDE_FALSE : Nat := 2

/-- The two process-wide atomic override cells OVERRIDE_UNICODE_SUPPORT and
OVERRIDE_RGB_ANSI_COLOURS, modelled as an explicit state record of the
stored u8 values. -/
structure OverrideState where
  override_unicode_support : Nat
  override_rgb_ansi_colours : Nat
deriving DecidableEq, Repr

/-- The state of both cells at process start: both initialised to
NO_OVERRIDE. -/
def initialOverrideState : OverrideState :=
  ⟨NO_OVERRIDE, NO_OVERRIDE⟩

/-- From store_override: the u8 value stored into the atomic target for a
given Option of Bool. -/
def store_override (supports : Option Bool) : Nat :=
  match supports with
  | some true => OVERRIDE_TRUE
  | some false => OVERRIDE_FALSE
  | none => NO_OVERRIDE

/-- From read_override: decode the stored u8, with a catch-all None arm. -/
def read_override (v : Nat) : Option Bool :=
  if v = OVERRIDE_TRUE then some true
  else if v = OVERRIDE_FALSE then some false
  else none

/-- From set_unicode_support_override: stores into the Unicode cell only. -/
def set_unicode_support_override (s : OverrideState) (supports : Option Bool) :
    OverrideState :=
  { s with override_unicode_support := store_override supports }

/-- From set_rgb_ansi_override: stores into the RGB cell only. -/
def set_rgb_ansi_override (s : OverrideState) (supports : Option Bool) :
    OverrideState :=
  { s with override_rgb_ansi_colours := store_override supports }

/-- From is_unicode_overridden: reads the Unicode cell. -/
def is_unicode_overridden (s : OverrideState) : Option Bool :=
  read_override s.override_unicode_support

/-- From is_rgb_ansi_overridden: reads the RGB cell. -/
def is_rgb_ansi_overridden (s : OverrideState) : Option Bool :=
  read_override s.override_rgb_ansi_colours

/-- The initializer closure of the static SUPPORTS_FULL_UNICODE: the
override read first, the static attribute of the current terminal as
fallback. -/
def supports_full_unicode_signal_compute
    (s : OverrideState) (current : TerminalType) : Bool :=
  match is_unicode_overridden s with
  | some override_state => override_state
  | none => current.supports_full_unicode

/-- The initializer closure of the static SUPPORTS_RGB_ANSI_COLOURS,
embedded exactly as written in lib.rs lines 619 to 625: it reads
is_unicode_overridden, not is_rgb_ansi_overridden, before falling back to
the static RGB attribute. -/
def supports_rgb_ansi_colours_signal_compute
    (s : OverrideState) (current : TerminalType) : Bool :=
  match is_unicode_overridden s with
  | some override_state => override_state
  | none => current.supports_rgb_ansi_colours

/-- Process-wide library state: the override cells together with the
LazyLock caches of the two feature-flag statics and the already classified
current terminal (the CURRENT_TERMINAL static). A cache of none means the
LazyLock has not been forced yet. -/
structure LibState where
  ov : OverrideState
  supports_full_unicode_cache : Option Bool
  supports_rgb_ansi_colours_cache : Option Bool
  current_terminal : TerminalType
deriving DecidableEq, Repr

/-- set_unicode_support_override lifted to the full library state: the
LazyLock caches are untouched by the store. -/
def LibState.set_unicode_support (s : LibState) (supports : Option Bool) :
    LibState :=
  { s with ov := set_unicode_support_override s.ov supports }

/-- set_rgb_ansi_override lifted to the full library state. -/
def LibState.set_rgb_ansi (s : LibState) (supports : Option Bool) : LibState :=
  { s with ov := set_rgb_ansi_override s.ov supports }

/-- Dereferencing the static SUPPORTS_FULL_UNICODE: the first read runs the
initializer and caches its value, every later read returns the cache. -/
def LibState.read_supports_full_unicode (s : LibState) : Bool × LibState :=
  match s.supports_full_unicode_cache with
  | some v => (v, s)
  | none =>
      let v := supports_full_unicode_signal_compute s.ov s.current_terminal
      (v, { s with supports_full_unicode_cache := some v })

/-- Dereferencing the static SUPPORTS_RGB_ANSI_COLOURS, with the same
LazyLock semantics. -/
def LibState.read_supports_rgb_ansi_colours (s : LibState) : Bool × LibState :=
  match s.supports_rgb_ansi_colours_cache with
  | some v => (v, s)
  | none =>
      let v := supports_rgb_ansi_colours_signal_compute s.ov s.current_terminal
      (v, { s with supports_rgb_ansi_colours_cache := some v })

/-- From the constant RELAUNCHED_ARGUMENT in lib.rs. -/
def RELAUNCHED_ARGUMENT : String := "--relaunched-term"

/-- The provider values constructed by get_provider_for_terminal; one unit
struct per relaunchable terminal in terminal_providers.rs. -/
inductive ProviderKind where
  | WindowsTerminalProvider
  | ITerm2Provider
  | GhosttyProvider
  | KittyProvider
  | AlacrittyProvider
  | WezTermProvider
deriving DecidableEq, Repr

/-- The terminal_type method of each provider impl. -/
def ProviderKind.terminal_type : ProviderKind → TerminalType
  | .WindowsTerminalProvider => .WindowsTerminal
  | .ITerm2Provider => .ITerm2
  | .GhosttyProvider => .Ghostty
  | .KittyProvider => .Kitty
  | .AlacrittyProvider => .Alacritty
  | .WezTermProvider => .WezTerm

/-- From get_provider_for_terminal in lib.rs, embedded exactly as its match
is written: five arms produce a provider, the catch-all arm (which includes
TerminalType::WezTerm) produces None. -/
def get_provider_for_terminal : TerminalType → Option ProviderKind
  | .WindowsTerminal => some .WindowsTerminalProvider
  | .ITerm2 => some .ITerm2Provider
  | .Ghostty => some .GhosttyProvider
  | .Kitty => some .KittyProvider
  | .Alacritty => some .AlacrittyProvider
  | _ => none

/-- From RelaunchError in errors.rs. The io::Error payload and the
ExitStatus payload are modelled as integer codes. -/
inductive RelaunchError where
  | NoAlternativeTerminalFound
  | UnsupportedTerminalProvider (t : TerminalType)
  | FailedToLaunchTerminal (t : TerminalType) (status : Int)
  | IOFailure (code : Int)
deriving DecidableEq, Repr

/-- Snapshot of the world the orchestrator interacts with: the process
argument list (argv, including argv at index zero), the classified current
terminal (the CURRENT_TERMINAL static, already forced), the runtime OS,
which providers report installed, and the outcome each provider's
relaunch_in_terminal call would produce. -/
structure RelaunchWorld where
  args : List String
  current_terminal : TerminalType
  os : OperatingSystem
  installed : ProviderKind → Bool
  relaunchOutcome : ProviderKind → Except RelaunchError Unit

/-- From has_been_relaunched: some process argument equals the sentinel. -/
def has_been_relaunched (w : RelaunchWorld) : Bool :=
  w.args.any (fun arg => arg == RELAUNCHED_ARGUMENT)

/-- From should_attempt_relaunch: not already relaunched and the current
terminal is not preferred. -/
def should_attempt_relaunch (w : RelaunchWorld) : Bool :=
  !has_been_relaunched w && !w.current_terminal.is_preferred

/-- The loop body of find_alternative_terminal: for each preferred terminal
in order, if it has a provider and the provider is installed, return it. -/
def find_alternative_in (w : RelaunchWorld) :
    List TerminalType → Option ProviderKind
  | [] => none
  | t :: rest =>
      match get_provider_for_terminal t with
      | some provider =>
          if w.installed provider then some provider
          else find_alternative_in w rest
      | none => find_alternative_in w rest

/-- From find_alternative_terminal: walk the preferred terminals for the
current OS. -/
def find_alternative_terminal (w : RelaunchWorld) : Option ProviderKind :=
  find_alternative_in w (get_preferred_terminals_for_os w.os)

/-- From try_relaunch_in_preferred_terminal: delegate to the found
provider's relaunch_in_terminal, else the no-alternative error. -/
def try_relaunch_in_preferred_terminal (w : RelaunchWorld) :
    Except RelaunchError Unit :=
  match find_alternative_terminal w with
  | some provider => w.relaunchOutcome provider
  | none => Except.error RelaunchError.NoAlternativeTerminalFound

/-- From relaunch_if_available: guard, then the attempt with the question
mark operator propagating its error, then Ok true; Ok false when the guard
does not pass. -/
def relaunch_if_available (w : RelaunchWorld) : Except RelaunchError Bool :=
  if should_attempt_relaunch w then
    match try_relaunch_in_preferred_terminal w with
    | Except.ok _ => Except.ok true
    | Except.error e => Except.error e
  else
    Except.ok false

/-- From get_relaunch_params in terminal_providers.rs: the executable path
and working directory are passed through, and the child argument list is
the sentinel followed by the process arguments with argv at index zero
skipped. -/
def get_relaunch_params (current_exe current_wd : String)
    (args : List String) : String × String × List String :=
  (current_exe, current_wd, RELAUNCHED_ARGUMENT :: args.drop 1)

/-- The character-level content of the Rust replace call in shell_escape:
each single quote becomes the four characters quote, backslash, quote,
quote; every other character is kept. -/
def escapeQuoteChar (c : Char) : List Char :=
  if c = '\'' then ['\'', '\\', '\'', '\''] else [c]

/-- The Rust replace call of shell_escape applied left to right over the
whole string: each character is sent through escapeQuoteChar. -/
def replaceSingleQuotes : List Char → List Char
  | [] => []
  | c :: t => escapeQuoteChar c ++ replaceSingleQuotes t

/-- From shell_escape in terminal_providers.rs: wrap the replaced body in
single quotes. Strings are modelled as character lists. -/
def shell_escape (s : List Char) : List Char :=
  '\'' :: (replaceSingleQuotes s ++ ['\''])

/-- A POSIX shell reading one word: outside single quotes a backslash
escapes the next character and a single quote opens a quoted span; inside
single quotes every character up to the closing quote is literal. Returns
none on a dangling backslash or an unterminated quote. The Bool argument
is true while inside single quotes. -/
def shellReadWord : Bool → List Char → Option (List Char)
  | true, [] => none
  | false, [] => some []
  | true, c :: rest =>
      if c = '\'' then shellReadWord false rest
      else (shellReadWord true rest).map (fun r => c :: r)
  | false, c :: rest =>
      if c = '\'' then shellReadWord true rest
      else if c = '\\' then
        match rest with
        | [] => none
        | d :: rest2 => (shellReadWord false rest2).map (fun r => d :: r)
      else (shellReadWord false rest).map (fun r => c :: r)

/-- Interpreting a string as a single shell word, starting outside quotes. -/
def shellInterpretWord (s : List Char) : Option (List Char) :=
  shellReadWord false s

/-!  Helper lemmas shared by the claim theorems. -/

/-- If every identifier in a list fails its signature check, the first-match
walk over that list yields nothing. -/
theorem find_first_matching_identifier_eq_none
    (env : EnvSnapshot) (os : OperatingSystem) (l : List TerminalIdentifier)
    (h : ∀ id ∈ l, id.signatures.all (fun s => s.check env os) = false) :
    find_first_matching_identifier env os l = none := by
  induction l with
  | nil => rfl
  | cons a t ih =>
      have ha := h a (List.mem_cons_self a t)
      simp only [find_first_matching_identifier, ha, Bool.false_eq_true,
        if_false]
      exact ih (fun id hid => h id (List.mem_cons_of_mem a hid))

/-- Signature-list conjunction respects pointwise agreement of checks. -/
theorem signatures_all_congr
    (env1 env2 : EnvSnapshot) (os : OperatingSystem)
    (h : ∀ sig : TerminalSignature, sig.check env1 os = sig.check env2 os)
    (sl : List TerminalSignature) :
    sl.all (fun s => s.check env1 os) = sl.all (fun s => s.check env2 os) := by
  induction sl with
  | nil => rfl
  | cons s t ih => simp [List.all_cons, h s, ih]

/-- The first-match walk respects pointwise agreement of checks. -/
theorem find_first_matching_identifier_congr
    (env1 env2 : EnvSnapshot) (os : OperatingSystem)
    (h : ∀ sig : TerminalSignature, sig.check env1 os = sig.check env2 os)
    (l : List TerminalIdentifier) :
    find_first_matching_identifier env1 os l
      = find_first_matching_identifier env2 os l := by
  induction l with
  | nil => rfl
  | cons a t ih =>
      simp only [find_first_matching_identifier,
        signatures_all_congr env1 env2 os h a.signatures, ih]

/-!  Claim theorems. -/

/-- C1: evaluation of the code at the failing input. With the Unicode
override unset and the RGB override set to Some false, the RGB-support
initializer still yields the static attribute (true for WindowsCMD) instead
of the override value false, because the code reads the Unicode override
flag; setting the Unicode override to Some false is what actually drives
the RGB signal. This exhibits the copy-paste defect in
SUPPORTS_RGB_ANSI_COLOURS. -/
theorem rgb_signal_reads_unicode_override :
    is_rgb_ansi_overridden
      (set_rgb_ansi_override initialOverrideState (some false)) = some false
    ∧ is_unicode_overridden
      (set_rgb_ansi_override initialOverrideState (some false)) = none
    ∧ supports_rgb_ansi_colours_signal_compute
      (set_rgb_ansi_override initialOverrideState (some false))
      TerminalType.WindowsCMD = true
    ∧ TerminalType.WindowsCMD.supports_rgb_ansi_colours = true
    ∧ supports_rgb_ansi_colours_signal_compute
      (set_unicode_support_override initialOverrideState (some false))
      TerminalType.WindowsCMD = false := by
  decide

/-- C3 counterexample: the claim says each of the six relaunchable variants,
WezTerm among them, gets a provider; but get_provider_for_terminal maps
WezTerm to None through its catch-all arm. -/
theorem wezterm_has_no_provider :
    ¬ ∃ p : ProviderKind,
      get_provider_for_terminal TerminalType.WezTerm = some p := by
  intro h
  rcases h with ⟨p, hp⟩
  simp [get_provider_for_terminal] at hp

/-- C3 amended: exactly the five variants Windows Terminal, iTerm2, Ghostty,
Kitty and Alacritty get a provider, whose terminal_type is the requested
variant; every other variant, WezTerm included, gets None. -/
theorem provider_mapping_for_relaunchable_terminals :
    ∀ t : TerminalType,
      (∀ p : ProviderKind,
        get_provider_for_terminal t = some p → p.terminal_type = t)
      ∧ ((get_provider_for_terminal t).isSome = true ↔
          (t = TerminalType.WindowsTerminal ∨ t = TerminalType.ITerm2
            ∨ t = TerminalType.Ghostty ∨ t = TerminalType.Kitty
            ∨ t = TerminalType.Alacritty)) := by
  intro t
  cases t <;>
    refine ⟨fun p hp => ?_, by decide⟩ <;>
    first
      | (injection hp with hp; subst hp; rfl)
      | exact Option.noConfusion hp

/-- C3 witness: the amended theorem applied at Windows Terminal. -/
theorem provider_mapping_witness :
    ProviderKind.terminal_type ProviderKind.WindowsTerminalProvider
      = TerminalType.WindowsTerminal :=
  (provider_mapping_for_relaunchable_terminals TerminalType.WindowsTerminal).1
    ProviderKind.WindowsTerminalProvider rfl

/-- C6: whenever the sentinel token occurs anywhere in the process argument
list, should_attempt_relaunch is false, whatever the classified terminal
and its attributes. -/
theorem sentinel_argument_blocks_relaunch :
    ∀ w : RelaunchWorld, RELAUNCHED_ARGUMENT ∈ w.args →
      should_attempt_relaunch w = false := by
  intro w h
  have hrel : has_been_relaunched w = true := by
    simp only [has_been_relaunched, List.any_eq_true]
    exact ⟨RELAUNCHED_ARGUMENT, h, by simp⟩
  simp [should_attempt_relaunch, hrel]

/-- C6 witness: a concrete argument list carrying the sentinel. -/
theorem sentinel_argument_blocks_relaunch_witness :
    should_attempt_relaunch
      ⟨["app", "--relaunched-term"], TerminalType.WindowsCMD,
        OperatingSystem.Windows, fun _ => true,
        fun _ => Except.ok ()⟩ = false :=
  sentinel_argument_blocks_relaunch _ (by simp [RELAUNCHED_ARGUMENT])

/-- C7: the child argument list built by get_relaunch_params starts with
the sentinel token, and at every later position carries exactly the
parent's argument from the same position, so the original arguments past
argv at index zero pass through unchanged and in order. -/
theorem relaunch_child_args_sentinel_first :
    ∀ (current_exe current_wd : String) (args : List String),
      ((get_relaunch_params current_exe current_wd args).2.2).head?
          = some RELAUNCHED_ARGUMENT
      ∧ ∀ i : Nat,
          ((get_relaunch_params current_exe current_wd args).2.2)[i + 1]?
            = args[i + 1]? := by
  intro current_exe current_wd args
  refine ⟨rfl, fun i => ?_⟩
  simp [get_relaunch_params, List.getElem?_drop, Nat.add_comm]

/-- C10: the two override cells are independent and round-trip: writing one
cell is read back exactly and leaves the other cell's read unchanged. -/
theorem override_flags_independent_roundtrip :
    ∀ (x : Option Bool) (s : OverrideState),
      is_unicode_overridden (set_unicode_support_override s x) = x
      ∧ is_rgb_ansi_overridden (set_unicode_support_override s x)
          = is_rgb_ansi_overridden s
      ∧ is_rgb_ansi_overridden (set_rgb_ansi_override s x) = x
      ∧ is_unicode_overridden (set_rgb_ansi_override s x)
          = is_unicode_overridden s := by
  intro x s
  rcases x with _ | b
  · simp [is_unicode_overridden, is_rgb_ansi_overridden,
      set_unicode_support_override, set_rgb_ansi_override, store_override,
      read_override, OVERRIDE_TRUE, OVERRIDE_FALSE, NO_OVERRIDE]
  · cases b <;>
      simp [is_unicode_overridden, is_rgb_ansi_overridden,
        set_unicode_support_override, set_rgb_ansi_override, store_override,
        read_override, OVERRIDE_TRUE, OVERRIDE_FALSE, NO_OVERRIDE]

/-- C4: whenever no identifier in the chained tables has all its signatures
true, the classifier returns exactly the compiled-in OS default and never
Unknown, for each of the three recognised operating systems. -/
theorem classifier_fallback_to_os_default :
    ∀ (env : EnvSnapshot) (os : OperatingSystem),
      (∀ id ∈ get_all_terminal_identifiers,
        id.signatures.all (fun s => s.check env os) = false) →
      (os = OperatingSystem.Windows ∨ os = OperatingSystem.MacOS
        ∨ os = OperatingSystem.Linux) →
      find_current_terminal env os = get_default_terminal_for_os os
      ∧ find_current_terminal env os ≠ TerminalType.Unknown := by
  intro env os h hos
  have hnone : find_first_matching_identifier env os
      (get_possible_terminal_identifiers_for os) = none := by
    apply find_first_matching_identifier_eq_none
    intro id hid
    exact h id (List.mem_of_mem_filter hid)
  have heq : find_current_terminal env os = get_default_terminal_for_os os := by
    simp [find_current_terminal, hnone]
  refine ⟨heq, ?_⟩
  rw [heq]
  rcases hos with h1 | h1 | h1 <;> subst h1 <;> decide

/-- C4 witness: the empty environment on Linux matches nothing and falls
back to the Linux default terminal. -/
theorem classifier_fallback_witness :
    find_current_terminal ⟨fun _ => none, false⟩ OperatingSystem.Linux
      = get_default_terminal_for_os OperatingSystem.Linux
    ∧ find_current_terminal ⟨fun _ => none, false⟩ OperatingSystem.Linux
      ≠ TerminalType.Unknown :=
  classifier_fallback_to_os_default ⟨fun _ => none, false⟩
    OperatingSystem.Linux (by decide) (Or.inr (Or.inr rfl))

/-- C9: the classification result is a deterministic function of the
signature truth values and the fixed table order: two environment snapshots
under which every signature checks identically classify identically. In
particular two successive calls on one unchanged snapshot agree. -/
theorem find_current_terminal_deterministic :
    ∀ (env1 env2 : EnvSnapshot) (os : OperatingSystem),
      (∀ sig : TerminalSignature, sig.check env1 os = sig.check env2 os) →
      find_current_terminal env1 os = find_current_terminal env2 os := by
  intro env1 env2 os h
  simp only [find_current_terminal,
    find_first_matching_identifier_congr env1 env2 os h]

/-- C9 witness: the determinism theorem applied to one concrete snapshot
against itself. -/
theorem find_current_terminal_deterministic_witness :
    find_current_terminal ⟨fun _ => none, false⟩ OperatingSystem.MacOS
      = find_current_terminal ⟨fun _ => none, false⟩ OperatingSystem.MacOS :=
  find_current_terminal_deterministic ⟨fun _ => none, false⟩
    ⟨fun _ => none, false⟩ OperatingSystem.MacOS (fun _ => rfl)

/-- C2 counterexample: starting from a fresh library state classified as
WindowsCMD (static Unicode attribute false), set the Unicode override to
Some true, read the signal (true, and the LazyLock caches it), clear the
override with None, read again: the read still yields the cached true and
does not revert to the static attribute, refuting the claim's second half. -/
theorem unicode_signal_cached_read_does_not_revert :
    (((LibState.set_unicode_support
        ⟨initialOverrideState, none, none, TerminalType.WindowsCMD⟩
        (some true)).read_supports_full_unicode).1 = true)
    ∧ ((((LibState.set_unicode_support
        ((LibState.set_unicode_support
          ⟨initialOverrideState, none, none, TerminalType.WindowsCMD⟩
          (some true)).read_supports_full_unicode).2
        none).read_supports_full_unicode).1) = true)
    ∧ TerminalType.WindowsCMD.supports_full_unicode = false := by
  decide

/-- C2 amended: on a state whose Unicode signal has not yet been read (the
LazyLock is unforced), setting the override to Some true makes the next
read true even for a variant whose static attribute is false, and clearing
the override with None before any read makes the next read yield the static
attribute; a read performed while the override was set is cached by the
LazyLock and persists after clearing. -/
theorem unicode_override_precedence_uncached :
    ∀ s : LibState, s.supports_full_unicode_cache = none →
      ((s.set_unicode_support (some true)).read_supports_full_unicode).1
        = true
      ∧ (((s.set_unicode_support (some true)).set_unicode_support
            none).read_supports_full_unicode).1
        = s.current_terminal.supports_full_unicode := by
  intro s h
  constructor <;>
    simp [LibState.set_unicode_support, LibState.read_supports_full_unicode,
      h, supports_full_unicode_signal_compute, is_unicode_overridden,
      set_unicode_support_override, store_override, read_override,
      OVERRIDE_TRUE, OVERRIDE_FALSE, NO_OVERRIDE]

/-- C2 witness: the amended theorem applied to a fresh WindowsCMD state. -/
theorem unicode_override_precedence_uncached_witness :
    ((LibState.set_unicode_support
        ⟨initialOverrideState, none, none, TerminalType.WindowsCMD⟩
        (some true)).read_supports_full_unicode).1 = true
    ∧ (((LibState.set_unicode_support
          (LibState.set_unicode_support
            ⟨initialOverrideState, none, none, TerminalType.WindowsCMD⟩
            (some true))
          none).read_supports_full_unicode).1)
      = TerminalType.WindowsCMD.supports_full_unicode :=
  unicode_override_precedence_uncached
    ⟨initialOverrideState, none, none, TerminalType.WindowsCMD⟩ rfl

/-- C5: relaunch_if_available returns Ok true exactly when the guard passed
and the underlying attempt succeeded; it returns Ok false whenever the
guard does not pass, regardless of provider availability; when the guard
passes it propagates any error of the attempt unchanged, and in particular
yields the no-alternative-terminal error when no installed preferred
provider exists. -/
theorem relaunch_if_available_guard_and_error_spec :
    ∀ w : RelaunchWorld,
      (relaunch_if_available w = Except.ok true ↔
        should_attempt_relaunch w = true
          ∧ try_relaunch_in_preferred_terminal w = Except.ok ())
      ∧ (should_attempt_relaunch w = false →
          relaunch_if_available w = Except.ok false)
      ∧ (∀ e : RelaunchError, should_attempt_relaunch w = true →
          try_relaunch_in_preferred_terminal w = Except.error e →
          relaunch_if_available w = Except.error e)
      ∧ (should_attempt_relaunch w = true →
          find_alternative_terminal w = none →
          relaunch_if_available w
            = Except.error RelaunchError.NoAlternativeTerminalFound) := by
  intro w
  cases hg : should_attempt_relaunch w with
  | false =>
      refine ⟨?_, fun _ => ?_, fun e h1 _ => ?_, fun h1 _ => ?_⟩
      · simp [relaunch_if_available, hg]
      · simp [relaunch_if_available, hg]
      · exact absurd h1 (by simp [hg])
      · exact absurd h1 (by simp [hg])
  | true =>
      cases ht : try_relaunch_in_preferred_terminal w with
      | ok u =>
          cases u
          refine ⟨?_, fun h1 => ?_, fun e _ h2 => ?_, fun _ hna => ?_⟩
          · simp [relaunch_if_available, hg, ht]
          · exact absurd h1 (by simp [hg])
          · exact absurd h2 (by simp [ht])
          · exact absurd ht
              (by simp [try_relaunch_in_preferred_terminal, hna])
      | error e0 =>
          refine ⟨?_, fun h1 => ?_, fun e _ h2 => ?_, fun _ hna => ?_⟩
          · simp [relaunch_if_available, hg, ht]
          · exact absurd h1 (by simp [hg])
          · injection h2 with h3
            subst h3
            simp [relaunch_if_available, hg, ht]
          · have h4 : Except.error (ε := RelaunchError) (α := Unit) e0
                = Except.error RelaunchError.NoAlternativeTerminalFound := by
              rw [← ht]
              simp [try_relaunch_in_preferred_terminal, hna]
            injection h4 with h5
            subst h5
            simp [relaunch_if_available, hg, ht]

/-- C5 witness: three concrete worlds. In the first, the sentinel is
present so the guard fails and the call yields Ok false. In the second, the
guard passes but nothing is installed, so the call yields the
no-alternative error. In the third, the guard passes and every provider is
installed with a successful relaunch, so the call yields Ok true. -/
theorem relaunch_if_available_spec_witness :
    relaunch_if_available
      ⟨["app", "--relaunched-term"], TerminalType.WindowsCMD,
        OperatingSystem.Windows, fun _ => true, fun _ => Except.ok ()⟩
      = Except.ok false
    ∧ relaunch_if_available
      ⟨["app"], TerminalType.WindowsCMD, OperatingSystem.Windows,
        fun _ => false, fun _ => Except.ok ()⟩
      = Except.error RelaunchError.NoAlternativeTerminalFound
    ∧ relaunch_if_available
      ⟨["app"], TerminalType.WindowsCMD, OperatingSystem.Windows,
        fun _ => true, fun _ => Except.ok ()⟩
      = Except.ok true :=
  ⟨(relaunch_if_available_guard_and_error_spec _).2.1 (by decide),
   (relaunch_if_available_guard_and_error_spec _).2.2.2 (by decide)
     (by decide),
   ((relaunch_if_available_guard_and_error_spec _).1).mpr
     ⟨by decide, by rfl⟩⟩

/-- Step equation: a single quote read outside quotes opens a quoted span. -/
theorem shellReadWord_false_quote (l : List Char) :
    shellReadWord false ('\'' :: l) = shellReadWord true l := by
  rw [shellReadWord.eq_def]; simp

/-- Step equation: a single quote read inside quotes closes the span. -/
theorem shellReadWord_true_quote (l : List Char) :
    shellReadWord true ('\'' :: l) = shellReadWord false l := by
  rw [shellReadWord.eq_def]; simp

/-- Step equation: outside quotes a backslash makes the next character
literal. -/
theorem shellReadWord_false_backslash (d : Char) (l : List Char) :
    shellReadWord false ('\\' :: d :: l)
      = (shellReadWord false l).map (fun r => d :: r) := by
  rw [shellReadWord.eq_def]; simp

/-- Step equation: inside quotes any character other than the quote is
literal. -/
theorem shellReadWord_true_other (c : Char) (l : List Char)
    (hc : c ≠ '\'') :
    shellReadWord true (c :: l)
      = (shellReadWord true l).map (fun r => c :: r) := by
  rw [shellReadWord.eq_def]; simp [hc]

/-- Reading the escaped body of a string from inside single quotes, up to
the closing quote, recovers the string: the induction core of the
shell-escape round trip. -/
theorem shellReadWord_escaped_body :
    ∀ s : List Char,
      shellReadWord true (replaceSingleQuotes s ++ ['\'']) = some s := by
  intro s
  induction s with
  | nil =>
      simp only [replaceSingleQuotes, List.nil_append,
        shellReadWord_true_quote]
      rw [shellReadWord.eq_def]
  | cons c t ih =>
      by_cases hc : c = '\''
      · subst hc
        simp only [replaceSingleQuotes, escapeQuoteChar, if_pos,
          List.cons_append, List.nil_append, List.append_assoc]
        rw [shellReadWord_true_quote, shellReadWord_false_backslash,
          shellReadWord_false_quote, ih]
        rfl
      · simp only [replaceSingleQuotes, escapeQuoteChar, hc, if_false,
          List.cons_append, List.nil_append]
        rw [shellReadWord_true_other c _ hc, ih]
        rfl

/-- C8: interpreting the output of shell_escape as one POSIX shell word
reproduces the original string exactly, for every input including inputs
with embedded single quotes; and the replacement sends each single quote to
the four-character close-quote, escaped-quote, reopen-quote sequence. -/
theorem shell_escape_round_trip :
    ∀ s : List Char,
      shellInterpretWord (shell_escape s) = some s
      ∧ escapeQuoteChar '\'' = ['\'', '\\', '\'', '\''] := by
  intro s
  refine ⟨?_, rfl⟩
  have hstep : shellInterpretWord (shell_escape s)
      = shellReadWord true (replaceSingleQuotes s ++ ['\'']) := by
    simp only [shellInterpretWord, shell_escape, shellReadWord_false_quote]
  rw [hstep]
  exact shellReadWord_escaped_body s

end TermRelaunch
